import Mathlib

/-!
Verification of the zync-python client SDK (src/zync.py), centred on the
preflight check engine (Job.preflight), the submission parameter merge
(Job.submit), the job-type dispatch (Zync.submit_job) and the job-control
status path (Job.set_status).  Python dictionaries are embedded as
association lists with unique keys, scene values as a small scalar type,
and the scene-query `eval` as an oracle returning `Option` (`none` models a
raised exception).
-/

namespace Zync

/-- A scalar value produced by the host-application scene query. -/
inductive Value where
  | str : String → Value
  | int : Int → Value
  | bool : Bool → Value
deriving DecidableEq, Repr

/-- Python `str()` on the scalar values we model. -/
def pyStr : Value → String
  | .str s => s
  | .int n => toString n
  | .bool b => if b then "True" else "False"

/-- Result of evaluating `api_call`: a bare scalar or an ordered sequence.
The code wraps anything that is not a list or tuple into a one-element
list (src/zync.py lines 431-432). -/
inductive ApiResult where
  | scalar : Value → ApiResult
  | seq : List Value → ApiResult
deriving DecidableEq, Repr

/-- Normalisation step of the engine: wrap a bare scalar. -/
def normalizeResult : ApiResult → List Value
  | .scalar v => [v]
  | .seq l => l

/-- One site-defined preflight check rule, as decoded from the remote
service (fields `api_call`, `operation_type`, `condition`, `error`). -/
structure CheckRule where
  api_call : String
  operation_type : String
  condition : List Value
  error : String
deriving DecidableEq, Repr

/-- The per-rule match loop (src/zync.py lines 437-441): walk the
normalised result, recording `str(result_item)` when the operation and the
membership test agree. -/
def ruleMatches (rule : CheckRule) : List Value → List String
  | [] => []
  | item :: rest =>
    if rule.operation_type == "equal" && rule.condition.contains item then
      pyStr item :: ruleMatches rule rest
    else if rule.operation_type == "not_equal" && !rule.condition.contains item then
      pyStr item :: ruleMatches rule rest
    else
      ruleMatches rule rest

/-- Outcome of a preflight run: the code either returns normally (`pass`)
or raises `ZyncPreflightError msg` (`fail msg`). -/
inductive PreflightResult where
  | pass : PreflightResult
  | fail : String → PreflightResult
deriving DecidableEq, Repr

/-- Replace every non-overlapping occurrence of `tgt`, scanning left to
right, as Python `str.replace` does for a non-empty target.  The fuel is
the input length; every step consumes at least one character, so the fuel
never runs out. -/
def pyReplaceFuel (tgt repl : List Char) : Nat → List Char → List Char
  | 0, s => s
  | _ + 1, [] => []
  | fuel + 1, c :: cs =>
    if !tgt.isEmpty && tgt.isPrefixOf (c :: cs) then
      repl ++ pyReplaceFuel tgt repl fuel (cs.drop (tgt.length - 1))
    else
      c :: pyReplaceFuel tgt repl fuel cs

/-- Python `s.replace(tgt, repl)` for a non-empty `tgt`. -/
def pyReplace (s tgt repl : String) : String :=
  ⟨pyReplaceFuel tgt.data repl.data s.data.length s.data⟩

/-- The message built at src/zync.py line 448: the error template of the
rule with token `%match%` replaced by the matches joined with a comma and
a space. -/
def failMessage (rule : CheckRule) (ms : List String) : String :=
  pyReplace rule.error "%match%" (String.intercalate ", " ms)

/-- The engine loop (src/zync.py lines 421-448), with an evaluation trace.
`query` models `eval` of an `api_call` expression; `none` models a raised
exception, which skips the rule (`continue`).  The second component lists
the `api_call` strings handed to `eval`, in order. -/
def preflightRun (query : String → Option ApiResult) :
    List CheckRule → PreflightResult × List String
  | [] => (.pass, [])
  | rule :: rest =>
    match query rule.api_call with
    | none =>
      let r := preflightRun query rest
      (r.1, rule.api_call :: r.2)
    | some res =>
      let ms := ruleMatches rule (normalizeResult res)
      if ms.isEmpty then
        let r := preflightRun query rest
        (r.1, rule.api_call :: r.2)
      else
        (.fail (failMessage rule ms), [rule.api_call])

/-- The preflight result alone. -/
def preflight (query : String → Option ApiResult) (rules : List CheckRule) :
    PreflightResult :=
  (preflightRun query rules).1

/-- A Python parameter value as held in the submit parameter dict:
strings, numbers, and (for scene_info) nested JSON structure. -/
inductive PVal where
  | str : String → PVal
  | int : Int → PVal
  | list : List PVal → PVal
  | dict : List (String × PVal) → PVal

mutual

/-- A JSON encoding of a parameter value, modelling `json.dumps` with its
default separators. -/
def jsonDumps : PVal → String
  | .str s => "\"" ++ s ++ "\""
  | .int n => toString n
  | .list xs => "[" ++ String.intercalate ", " (jsonDumpsList xs) ++ "]"
  | .dict xs => "\x7b" ++ String.intercalate ", " (jsonDumpsDict xs) ++ "\x7d"

/-- JSON encodings of the elements of a JSON array. -/
def jsonDumpsList : List PVal → List String
  | [] => []
  | v :: vs => jsonDumps v :: jsonDumpsList vs

/-- JSON encodings of the entries of a JSON object. -/
def jsonDumpsDict : List (String × PVal) → List String
  | [] => []
  | (k, v) :: vs => ("\"" ++ k ++ "\": " ++ jsonDumps v) :: jsonDumpsDict vs

end

/-- A Python dict of submit parameters, as an association list whose keys
are unique. -/
abbrev PDict := List (String × PVal)

/-- Python dict assignment `d[k] = v`: overwrite the value in place when
the key exists, otherwise append the new entry. -/
def dictSet : PDict → String → PVal → PDict
  | [], k, v => [(k, v)]
  | p :: ps, k, v => if p.1 == k then (k, v) :: ps else p :: dictSet ps k v

/-- Python dict lookup `d[k]`, `none` when the key is absent. -/
def dictGet : PDict → String → Option PVal
  | [], _ => none
  | p :: ps, k => if p.1 == k then some p.2 else dictGet ps k

/-- Python `d.update(params)`: assign each pair of `params` in order. -/
def dictUpdate (d : PDict) (params : PDict) : PDict :=
  params.foldl (fun acc p => dictSet acc p.1 p.2) d

/-- The default parameters set up by Job.submit (src/zync.py lines
463-472), in order. -/
def submitDefaults (default_instance_type : String) : PDict :=
  [("instance_type", .str default_instance_type),
   ("upload_only", .int 0),
   ("start_new_slots", .int 1),
   ("chunk_size", .int 1),
   ("distributed", .int 0),
   ("num_instances", .int 1),
   ("skip_check", .int 0),
   ("notify_complete", .int 0),
   ("job_subtype", .str "render")]

/-- The transmitted parameter mapping built by Job.submit (src/zync.py
lines 463-482): the defaults, then `data.update(params)`, then the JSON
encoding of the scene_info value when that key is present. -/
def submitData (default_instance_type : String) (params : PDict) : PDict :=
  let data := dictUpdate (submitDefaults default_instance_type) params
  match dictGet data "scene_info" with
  | some v => dictSet data "scene_info" (.str (jsonDumps v))
  | none => data

/-- Python `str.lower` on the ASCII range. -/
def pyLowerChar (c : Char) : Char :=
  if 'A' ≤ c ∧ c ≤ 'Z' then Char.ofNat (c.toNat + 32) else c

/-- Python `str.lower` applied to a whole string. -/
def pyLower (s : String) : String := ⟨s.data.map pyLowerChar⟩

/-- An observable side effect of the submission flow. -/
inductive Effect where
  | httpGet : String → Effect
  | httpPost : String → Effect
  | sceneEval : String → Effect
  | fileOpen : String → Effect
  | fileWrite : String → Effect
  | fileClose : String → Effect
deriving DecidableEq, Repr

/-- The collaborators of Zync.submit_job: the preflight rules the service
returns per job type, the scene-query oracle, and the service base URL. -/
structure SubmitEnv where
  fetchRules : String → List CheckRule
  query : String → Option ApiResult
  url : String

/-- Outcome of Zync.submit_job: normal return, or a raised ZyncError or
ZyncPreflightError. -/
inductive SubmitOutcome where
  | ok : SubmitOutcome
  | error : String → SubmitOutcome
deriving DecidableEq, Repr

/-- Zync.submit_job (src/zync.py lines 244-277) as outcome plus effect
trace: lower-case job-type dispatch, the preflight-rules GET, the scene
evaluations of the preflight loop, then — on preflight success — the
write of /Users/cipriano/params.out (lines 272-275) and the job-creation
POST. -/
def submit_job (env : SubmitEnv) (job_type : String) : SubmitOutcome × List Effect :=
  let jt := pyLower job_type
  if jt == "nuke" || jt == "maya" || jt == "arnold" then
    let rules := env.fetchRules jt
    let fetchEff := Effect.httpGet (env.url ++ "/api/preflight/" ++ jt)
    let pf := preflightRun env.query rules
    match pf.1 with
    | .fail msg => (.error msg, fetchEff :: pf.2.map Effect.sceneEval)
    | .pass =>
      (.ok,
       fetchEff :: pf.2.map Effect.sceneEval ++
         [Effect.fileOpen "/Users/cipriano/params.out",
          Effect.fileWrite "/Users/cipriano/params.out",
          Effect.fileWrite "/Users/cipriano/params.out",
          Effect.fileClose "/Users/cipriano/params.out",
          Effect.httpPost (env.url ++ "/api/job")])
  else
    (.error ("Unrecognized job_type \"" ++ jt ++ "\"."), [])

/-- An argument handed to the Python `%` string-formatting operator. -/
inductive FmtArg where
  | s : String → FmtArg
  | d : Int → FmtArg
deriving DecidableEq, Repr

/-- Python `str()` of a format argument, used by the `%s` conversion. -/
def fmtArgStr : FmtArg → String
  | .s s => s
  | .d n => toString n

/-- Python `%` formatting restricted to the `%s` and `%d` conversions.
`none` models the TypeError raised when the arguments do not fit the
conversions: not enough arguments, surplus arguments, or `%d` applied to
a non-number. -/
def pyFormatAux : List Char → List FmtArg → Option (List Char)
  | [], [] => some []
  | [], _ :: _ => none
  | '%' :: '%' :: rest, args => (pyFormatAux rest args).map (fun t => '%' :: t)
  | '%' :: 's' :: rest, a :: args =>
      (pyFormatAux rest args).map (fun t => (fmtArgStr a).data ++ t)
  | '%' :: 'd' :: rest, (.d n) :: args =>
      (pyFormatAux rest args).map (fun t => (toString n).data ++ t)
  | '%' :: _ :: _, _ => none
  | ['%'], _ => none
  | c :: rest, args => (pyFormatAux rest args).map (fun t => c :: t)

/-- Python `fmt % args`. -/
def pyFormat (fmt : String) (args : List FmtArg) : Option String :=
  (pyFormatAux fmt.data args).map (fun cs => ⟨cs⟩)

/-- Outcome of a job-control call: `error` models an exception raised
before any request is issued; `request url status` is the POST that
reaches the remote service. -/
inductive StatusOutcome where
  | error : String → StatusOutcome
  | request : String → String → StatusOutcome
deriving DecidableEq, Repr

/-- Job.set_status (src/zync.py lines 331-339): check the id, build the
URL with the format string of line 337, and POST the new status.  The
format string has two conversions but receives the one-element tuple
`(self.zync.url,)`. -/
def set_status (url : String) (jid : Option Int) (status : String) : StatusOutcome :=
  match jid with
  | none => .error "This Job hasn\x27t been initialized with an ID, yet, so this method is unavailable."
  | some _ =>
    match pyFormat "%s/api/job/%d" [.s url] with
    | none => .error "TypeError: not enough arguments for format string"
    | some u => .request u status

/-- Job.cancel (src/zync.py line 345). -/
def cancel (url : String) (jid : Option Int) : StatusOutcome := set_status url jid "canceled"

/-- Job.resume (src/zync.py line 351). -/
def resume (url : String) (jid : Option Int) : StatusOutcome := set_status url jid "resume"

/-- Job.pause (src/zync.py line 357). -/
def pause (url : String) (jid : Option Int) : StatusOutcome := set_status url jid "paused"

/-- Job.unpause (src/zync.py line 363). -/
def unpause (url : String) (jid : Option Int) : StatusOutcome := set_status url jid "unpaused"

/-- Job.restart (src/zync.py line 369). -/
def restart (url : String) (jid : Option Int) : StatusOutcome := set_status url jid "queued"

namespace Lemmas

/-- On an `equal` rule the recorded matches are exactly the string forms
of the values that lie in the condition, in result order. -/
theorem ruleMatches_equal (rule : CheckRule) (hop : rule.operation_type = "equal")
    (vs : List Value) :
    ruleMatches rule vs =
      (vs.filter (fun v => rule.condition.contains v)).map pyStr := by
  induction vs with
  | nil => rfl
  | cons v vs ih =>
    by_cases h : v ∈ rule.condition
    · simp [ruleMatches, hop, h, ih, List.filter_cons]
    · simp [ruleMatches, hop, h, ih, List.filter_cons]

/-- On a `not_equal` rule the recorded matches are exactly the string
forms of the values outside the condition, in result order. -/
theorem ruleMatches_not_equal (rule : CheckRule)
    (hop : rule.operation_type = "not_equal") (vs : List Value) :
    ruleMatches rule vs =
      (vs.filter (fun v => !rule.condition.contains v)).map pyStr := by
  induction vs with
  | nil => rfl
  | cons v vs ih =>
    by_cases h : v ∈ rule.condition
    · simp [ruleMatches, hop, h, ih, List.filter_cons]
    · simp [ruleMatches, hop, h, ih, List.filter_cons]

/-- A rule whose operation type is neither recognised enumerant records
no matches. -/
theorem ruleMatches_other (rule : CheckRule)
    (h1 : rule.operation_type ≠ "equal") (h2 : rule.operation_type ≠ "not_equal")
    (vs : List Value) :
    ruleMatches rule vs = [] := by
  induction vs with
  | nil => rfl
  | cons v vs ih => simp [ruleMatches, h1, h2, ih]

/-- A rule that can record no match under `query` is transparent for the
preflight result, wherever it sits in the sequence. -/
theorem preflight_skip (query : String → Option ApiResult) (rule : CheckRule)
    (h : ∀ res, query rule.api_call = some res →
      ruleMatches rule (normalizeResult res) = []) :
    ∀ l1 l2 : List CheckRule,
      preflight query (l1 ++ rule :: l2) = preflight query (l1 ++ l2) := by
  intro l1
  induction l1 with
  | nil =>
    intro l2
    cases hq : query rule.api_call with
    | none => simp [preflight, preflightRun, hq]
    | some res => simp [preflight, preflightRun, hq, h res hq]
  | cons hd tl ih =>
    intro l2
    cases hq : query hd.api_call with
    | none => simp [preflight, preflightRun, hq]; exact ih l2
    | some res =>
      by_cases hm : (ruleMatches hd (normalizeResult res)).isEmpty
      · simp [preflight, preflightRun, hq, hm]; exact ih l2
      · simp [preflight, preflightRun, hq, hm]

/-- Lookup after Python dict assignment. -/
theorem dictGet_dictSet (d : PDict) (k : String) (v : PVal) (k' : String) :
    dictGet (dictSet d k v) k' = if k == k' then some v else dictGet d k' := by
  induction d with
  | nil => simp [dictSet, dictGet]
  | cons p ps ih =>
    by_cases h : p.1 == k
    · have h1 : p.1 = k := by simpa using h
      by_cases h2 : (k == k') = true
      · simp [dictSet, dictGet, h, h2]
      · simp [dictSet, dictGet, h, h2, h1]
    · by_cases h2 : (p.1 == k') = true
      · have hk : ¬ (k == k') = true := by
          intro hc
          exact h (by simp_all)
        simp [dictSet, dictGet, h, h2, hk]
      · simp [dictSet, dictGet, h, h2, ih]

/-- A key outside the list of keys looks up to nothing. -/
theorem dictGet_eq_none (d : PDict) (k : String) (h : k ∉ d.map Prod.fst) :
    dictGet d k = none := by
  induction d with
  | nil => rfl
  | cons p ps ih =>
    simp only [List.map_cons, List.mem_cons] at h
    push_neg at h
    have h1 : ¬ (p.1 == k) = true := by
      simp only [beq_iff_eq]
      exact fun hc => h.1 hc.symm
    simp [dictGet, h1, ih h.2]

/-- Lookup after Python `d.update(params)` when the keys of `params` are
unique: a key of `params` wins, any other key falls back to `d`. -/
theorem dictGet_dictUpdate (params : PDict) (hnd : (params.map Prod.fst).Nodup) :
    ∀ (d : PDict) (k : String),
      dictGet (dictUpdate d params) k =
        match dictGet params k with
        | some v => some v
        | none => dictGet d k := by
  induction params with
  | nil =>
    intro d k
    simp [dictUpdate, dictGet]
  | cons p ps ih =>
    intro d k
    simp only [List.map_cons, List.nodup_cons] at hnd
    have hupd : dictUpdate d (p :: ps) = dictUpdate (dictSet d p.1 p.2) ps := rfl
    rw [hupd, ih hnd.2]
    by_cases h : (p.1 == k) = true
    · have h1 : p.1 = k := by simpa using h
      have hnone : dictGet ps k = none := by
        apply dictGet_eq_none
        rw [← h1]
        exact hnd.1
      simp [dictGet, h, hnone, dictGet_dictSet, h1]
    · simp only [dictGet, h]
      cases hps : dictGet ps k with
      | some v => simp
      | none => simp [dictGet_dictSet, h]

end Lemmas

/-- C1: for every rule with operation type `equal` whose evaluated result
sequence has at least one value inside `condition`, preflight produces a
failure whose message is the error template of the rule with the `%match%`
token replaced by exactly the intersecting values, comma-joined, in the
order they appeared in the evaluated sequence. -/
theorem C1_equal_rule_fail (query : String → Option ApiResult) (rule : CheckRule)
    (rest : List CheckRule) (res : ApiResult)
    (hop : rule.operation_type = "equal")
    (hq : query rule.api_call = some res)
    (hne : (normalizeResult res).filter (fun v => rule.condition.contains v) ≠ []) :
    preflight query (rule :: rest) =
      .fail (pyReplace rule.error "%match%"
        (String.intercalate ", "
          (((normalizeResult res).filter (fun v => rule.condition.contains v)).map pyStr))) := by
  have hm := Lemmas.ruleMatches_equal rule hop (normalizeResult res)
  have hmm : ¬ (ruleMatches rule (normalizeResult res)).isEmpty = true := by
    rw [hm]
    simpa using hne
  simp only [preflight, preflightRun, hq]
  rw [if_neg hmm, hm]
  rfl

/-- C1 witness: the single mentalray scenario of the spec evaluates to the
expected failure. -/
theorem C1_witness :
    preflight
      (fun e => if e == "renderer()" then some (.scalar (.str "mentalray")) else none)
      [⟨"renderer()", "equal", [.str "mentalray"], "found %match%"⟩]
    = .fail "found mentalray" := by
  have h := C1_equal_rule_fail
    (fun e => if e == "renderer()" then some (.scalar (.str "mentalray")) else none)
    ⟨"renderer()", "equal", [.str "mentalray"], "found %match%"⟩ []
    (.scalar (.str "mentalray")) rfl rfl (by decide)
  exact h

/-- C2: for every rule with operation type `not_equal` whose evaluated
result sequence contains at least one value outside `condition`, preflight
produces a failure carrying the formatted message of that rule. -/
theorem C2_not_equal_rule_fail (query : String → Option ApiResult) (rule : CheckRule)
    (rest : List CheckRule) (res : ApiResult)
    (hop : rule.operation_type = "not_equal")
    (hq : query rule.api_call = some res)
    (hne : (normalizeResult res).filter (fun v => !rule.condition.contains v) ≠ []) :
    preflight query (rule :: rest) =
      .fail (failMessage rule
        (((normalizeResult res).filter (fun v => !rule.condition.contains v)).map pyStr)) := by
  have hm := Lemmas.ruleMatches_not_equal rule hop (normalizeResult res)
  have hmm : ¬ (ruleMatches rule (normalizeResult res)).isEmpty = true := by
    rw [hm]
    simpa using hne
  simp only [preflight, preflightRun, hq]
  rw [if_neg hmm, hm]

/-- C2 witness: a not_equal rule fails when the renderer is not on the
allowed list. -/
theorem C2_witness :
    preflight
      (fun e => if e == "renderer()" then some (.scalar (.str "mentalray")) else none)
      [⟨"renderer()", "not_equal", [.str "arnold"], "bad %match%"⟩]
    = .fail "bad mentalray" := by
  have h := C2_not_equal_rule_fail
    (fun e => if e == "renderer()" then some (.scalar (.str "mentalray")) else none)
    ⟨"renderer()", "not_equal", [.str "arnold"], "bad %match%"⟩ []
    (.scalar (.str "mentalray")) rfl rfl (by decide)
  exact h

/-- C3: preflight short-circuits on the first failing rule.  When rule 1
records a match (and rule 2 would record one too), the run produces the
failure message of rule 1 and its evaluation trace is exactly the api_call
of rule 1: the api_call of rule 2 is never evaluated. -/
theorem C3_short_circuit (query : String → Option ApiResult) (r1 r2 : CheckRule)
    (rest : List CheckRule) (res1 res2 : ApiResult)
    (hq1 : query r1.api_call = some res1)
    (hm1 : ruleMatches r1 (normalizeResult res1) ≠ [])
    (_hq2 : query r2.api_call = some res2)
    (_hm2 : ruleMatches r2 (normalizeResult res2) ≠ []) :
    preflightRun query (r1 :: r2 :: rest) =
      (.fail (failMessage r1 (ruleMatches r1 (normalizeResult res1))), [r1.api_call]) := by
  have hmm : ¬ (ruleMatches r1 (normalizeResult res1)).isEmpty = true := by
    simpa using hm1
  simp [preflightRun, hq1, hmm]

/-- C3 witness: with two failing rules only the first message appears and
only the first api_call is evaluated. -/
theorem C3_witness :
    preflightRun
      (fun e => if e == "renderer()" then some (.scalar (.str "mentalray"))
        else if e == "version()" then some (.scalar (.str "2011")) else none)
      [⟨"renderer()", "equal", [.str "mentalray"], "found %match%"⟩,
       ⟨"version()", "equal", [.str "2011"], "bad %match%"⟩]
    = (.fail "found mentalray", ["renderer()"]) := by
  have h := C3_short_circuit
    (fun e => if e == "renderer()" then some (.scalar (.str "mentalray"))
      else if e == "version()" then some (.scalar (.str "2011")) else none)
    ⟨"renderer()", "equal", [.str "mentalray"], "found %match%"⟩
    ⟨"version()", "equal", [.str "2011"], "bad %match%"⟩ []
    (.scalar (.str "mentalray")) (.scalar (.str "2011"))
    rfl (by decide) rfl (by decide)
  exact h

/-- C4: fail-open per rule.  If evaluating the api_call of a rule raises,
the preflight result over the whole sequence equals the result with that
rule removed; the exception is never propagated. -/
theorem C4_fail_open (query : String → Option ApiResult) (r : CheckRule)
    (hq : query r.api_call = none) (l1 l2 : List CheckRule) :
    preflight query (l1 ++ r :: l2) = preflight query (l1 ++ l2) := by
  refine Lemmas.preflight_skip query r ?_ l1 l2
  intro res hres
  rw [hq] at hres
  exact absurd hres (by simp)

/-- C4 witness: a rule whose evaluation raises leaves the result of the
remaining sequence unchanged. -/
theorem C4_witness :
    preflight (fun _ => none)
      [⟨"broken()", "equal", [.str "x"], "err %match%"⟩,
       ⟨"other()", "equal", [.str "x"], "err2"⟩]
    = preflight (fun _ => none) [⟨"other()", "equal", [.str "x"], "err2"⟩] :=
  C4_fail_open (fun _ => none) ⟨"broken()", "equal", [.str "x"], "err %match%"⟩ rfl
    [] [⟨"other()", "equal", [.str "x"], "err2"⟩]

/-- C5: a rule whose operation type is neither `equal` nor `not_equal`
records no matches, and a sequence containing it yields the same preflight
result as the sequence with the rule removed — the rule is inert and never
by itself causes a failure or an error. -/
theorem C5_unknown_op_inert (rule : CheckRule)
    (h1 : rule.operation_type ≠ "equal") (h2 : rule.operation_type ≠ "not_equal") :
    (∀ vs, ruleMatches rule vs = []) ∧
    ∀ (query : String → Option ApiResult) (l1 l2 : List CheckRule),
      preflight query (l1 ++ rule :: l2) = preflight query (l1 ++ l2) := by
  refine ⟨Lemmas.ruleMatches_other rule h1 h2, ?_⟩
  intro query l1 l2
  exact Lemmas.preflight_skip query rule
    (fun res _ => Lemmas.ruleMatches_other rule h1 h2 _) l1 l2

/-- C5 witness: a rule with operation type `between` matches nothing and
leaves a run passing even when its result sits in the condition. -/
theorem C5_witness :
    ruleMatches ⟨"renderer()", "between", [.str "x"], "e %match%"⟩ [.str "x"] = [] ∧
    preflight (fun _ => some (.scalar (.str "x")))
      [⟨"renderer()", "between", [.str "x"], "e %match%"⟩]
    = .pass := by
  have h := C5_unknown_op_inert ⟨"renderer()", "between", [.str "x"], "e %match%"⟩
    (by decide) (by decide)
  refine ⟨h.1 [.str "x"], ?_⟩
  have h2 := h.2 (fun _ => some (.scalar (.str "x"))) [] []
  simpa using h2

/-- C6: Job.submit merges the caller parameters over the documented
defaults with Python dict update semantics: every caller-supplied key
keeps its caller value in the transmitted mapping, and every default key
the caller omits keeps its default value. -/
theorem C6_submit_merge (dit : String) (params : PDict)
    (hnd : (params.map Prod.fst).Nodup) :
    (∀ k v, k ≠ "scene_info" → dictGet params k = some v →
        dictGet (submitData dit params) k = some v) ∧
    (∀ k v, dictGet params k = none → dictGet (submitDefaults dit) k = some v →
        dictGet (submitData dit params) k = some v) := by
  have hup := Lemmas.dictGet_dictUpdate params hnd (submitDefaults dit)
  constructor
  · intro k v hk hv
    have hdata : dictGet (dictUpdate (submitDefaults dit) params) k = some v := by
      rw [hup k, hv]
    unfold submitData
    cases hsi : dictGet (dictUpdate (submitDefaults dit) params) "scene_info" with
    | none => simpa [hsi] using hdata
    | some w =>
      simp only [hsi]
      rw [Lemmas.dictGet_dictSet]
      have hne : ¬ ("scene_info" == k) = true := by
        simpa using fun hc => hk hc.symm
      simp [hne, hdata]
  · intro k v hnone hdef
    have hk : k ≠ "scene_info" := by
      intro hc
      subst hc
      have hdefsi : dictGet (submitDefaults dit) "scene_info" = none := rfl
      rw [hdefsi] at hdef
      exact absurd hdef (by simp)
    have hdata : dictGet (dictUpdate (submitDefaults dit) params) k = some v := by
      rw [hup k, hnone, hdef]
    unfold submitData
    cases hsi : dictGet (dictUpdate (submitDefaults dit) params) "scene_info" with
    | none => simpa [hsi] using hdata
    | some w =>
      simp only [hsi]
      rw [Lemmas.dictGet_dictSet]
      have hne : ¬ ("scene_info" == k) = true := by
        simpa using fun hc => hk hc.symm
      simp [hne, hdata]

/-- C6 witness: the merge scenario of the spec — caller
chunk_size = 5 is transmitted, default num_instances = 1 survives. -/
theorem C6_witness :
    dictGet (submitData "n1-standard-8" [("chunk_size", PVal.int 5)]) "chunk_size"
      = some (PVal.int 5) ∧
    dictGet (submitData "n1-standard-8" [("chunk_size", PVal.int 5)]) "num_instances"
      = some (PVal.int 1) := by
  have h := C6_submit_merge "n1-standard-8" [("chunk_size", PVal.int 5)] (by simp)
  exact ⟨h.1 "chunk_size" (PVal.int 5) (by decide) rfl,
         h.2 "num_instances" (PVal.int 1) rfl rfl⟩

/-- C7: when the merged parameter mapping holds a scene_info value, the
transmitted mapping carries its JSON-encoded string at scene_info and
agrees with the merged mapping at every other key; without scene_info the
mapping is transmitted with no transform at all. -/
theorem C7_scene_info_transform (dit : String) (params : PDict)
    (hnd : (params.map Prod.fst).Nodup) :
    (∀ v, dictGet params "scene_info" = some v →
        dictGet (submitData dit params) "scene_info" = some (.str (jsonDumps v)) ∧
        ∀ k, k ≠ "scene_info" →
          dictGet (submitData dit params) k =
            dictGet (dictUpdate (submitDefaults dit) params) k) ∧
    (dictGet params "scene_info" = none →
        submitData dit params = dictUpdate (submitDefaults dit) params) := by
  have hup := Lemmas.dictGet_dictUpdate params hnd (submitDefaults dit)
  constructor
  · intro v hv
    have hdata : dictGet (dictUpdate (submitDefaults dit) params) "scene_info" = some v := by
      rw [hup "scene_info", hv]
    constructor
    · unfold submitData
      simp only [hdata]
      rw [Lemmas.dictGet_dictSet]
      simp
    · intro k hk
      unfold submitData
      simp only [hdata]
      rw [Lemmas.dictGet_dictSet]
      have hne : ¬ ("scene_info" == k) = true := by
        simpa using fun hc => hk hc.symm
      simp [hne]
  · intro hnone
    have hdefsi : dictGet (submitDefaults dit) "scene_info" = none := rfl
    have hdata : dictGet (dictUpdate (submitDefaults dit) params) "scene_info" = none := by
      rw [hup "scene_info", hnone, hdefsi]
    unfold submitData
    simp [hdata]

/-- C7 witness: a structured scene_info value is transmitted as its JSON
string, and a mapping without scene_info is transmitted untransformed. -/
theorem C7_witness :
    dictGet (submitData "n1-standard-8"
        [("scene_info", PVal.dict [("version", PVal.str "2014")])]) "scene_info"
      = some (PVal.str "\x7b\"version\": \"2014\"\x7d") ∧
    submitData "n1-standard-8" [("chunk_size", PVal.int 5)]
      = dictUpdate (submitDefaults "n1-standard-8") [("chunk_size", PVal.int 5)] := by
  constructor
  · have h := (C7_scene_info_transform "n1-standard-8"
      [("scene_info", PVal.dict [("version", PVal.str "2014")])] (by simp)).1
      (PVal.dict [("version", PVal.str "2014")]) rfl
    rw [h.1]
    rfl
  · exact (C7_scene_info_transform "n1-standard-8" [("chunk_size", PVal.int 5)]
      (by simp)).2 rfl

/-- C8: the claim that the submission flow performs no file system side
effects fails on the code.  On a run whose preflight passes, submit_job
opens and writes /Users/cipriano/params.out (src/zync.py lines 272-275)
between the preflight and the job-creation POST. -/
theorem C8_submit_job_file_write :
    (submit_job ⟨fun _ => [], fun _ => none, "http://zync.test"⟩ "nuke").2 =
      [.httpGet "http://zync.test/api/preflight/nuke",
       .fileOpen "/Users/cipriano/params.out",
       .fileWrite "/Users/cipriano/params.out",
       .fileWrite "/Users/cipriano/params.out",
       .fileClose "/Users/cipriano/params.out",
       .httpPost "http://zync.test/api/job"] := rfl

/-- C9: the claim that the status-update path never fails before reaching
the remote call is refuted by the code.  The format string at src/zync.py
line 337 has two conversions but receives only the base URL, so for every
initialized job id each job-control operation raises a TypeError before
any request is issued. -/
theorem C9_set_status_type_error (url : String) (i : Int) (status : String) :
    set_status url (some i) status =
      .error "TypeError: not enough arguments for format string" ∧
    cancel url (some i) = .error "TypeError: not enough arguments for format string" ∧
    pause url (some i) = .error "TypeError: not enough arguments for format string" ∧
    unpause url (some i) = .error "TypeError: not enough arguments for format string" ∧
    resume url (some i) = .error "TypeError: not enough arguments for format string" ∧
    restart url (some i) = .error "TypeError: not enough arguments for format string" :=
  ⟨rfl, rfl, rfl, rfl, rfl, rfl⟩

/-- C10: submit_job lower-cases the requested job type; for every type
whose lower-cased form is none of nuke, maya and arnold it raises an
error naming the unrecognized type, with an empty effect trace — so
before any preflight evaluation and before any job-creation request. -/
theorem C10_unrecognized_job_type (env : SubmitEnv) (job_type : String)
    (h1 : pyLower job_type ≠ "nuke") (h2 : pyLower job_type ≠ "maya")
    (h3 : pyLower job_type ≠ "arnold") :
    submit_job env job_type =
      (.error ("Unrecognized job_type \"" ++ pyLower job_type ++ "\"."), []) := by
  unfold submit_job
  simp [h1, h2, h3]

/-- C10 witness: a Houdini submission is rejected by name with no effect
performed. -/
theorem C10_witness :
    submit_job ⟨fun _ => [], fun _ => none, "http://zync.test"⟩ "Houdini"
      = (.error "Unrecognized job_type \"houdini\".", []) := by
  have h := C10_unrecognized_job_type ⟨fun _ => [], fun _ => none, "http://zync.test"⟩
    "Houdini" (by decide) (by decide) (by decide)
  exact h

end Zync

